import Mathlib

/-!
Verification of the vid-scripts audio/video cleanup tool.

This file shallowly embeds the decision logic of `src/audio_cleanup.py`
(`main`), `src/todo/not-production-ready/audio-cleanup/vid_tools.py`
(`get_video_rotation_filter`) and
`src/todo/not-production-ready/audio-cleanup/audio_analysis.py`
(`classify_content`, `suggest_preset`, `auto_filters`).

Modelling conventions:
- Python floats are modelled as exact rationals; all float values that the
  scripts actually compute with (CLI degrees, one-decimal EQ gains, the
  pi literal 3.141592653589793) are exactly representable decimals, and the
  scripts only compare, negate, scale and take `% 360` of them.
- The ffmpeg subprocess (`ffmpeg_cmd`) is an external collaborator; each
  call site of `ffmpeg_cmd` in `main` becomes one `EngineCall` constructor
  carrying the arguments that vary between runs.  `ffmpeg_cmd` exits the
  process with status 1 when the subprocess fails, which the model mirrors.
- `librosa`-based descriptor extraction (`analyze_audio`) is an external
  collaborator, modelled as an oracle `Env.analyze`.
- Error messages printed before `sys.exit(1)` are identified by `ErrKind`
  values, one per distinct message in the source.
- Filesystem existence checks (`os.path.exists`) are modelled by the oracle
  `Env.pathExists`.  Files created inside the `tempfile.TemporaryDirectory`
  are always removed by the context manager, so `RunResult.outputs` records
  only the non-temporary files produced by a run.
-/

namespace VidScripts

/-! ### Python string helpers

`os.path.basename`, `os.path.splitext`, `str.lower`, `str.endswith` and
`",".join`, as used by `main`.  They are implemented over `List Char` so
that they reduce inside the kernel. -/

/-- Split a character list on a separator character (used to model the
positional behaviour of `p.rfind(sep)` inside `os.path.basename`). -/
def splitOnChar (c : Char) (cs : List Char) : List (List Char) :=
  cs.foldr
    (fun x acc =>
      match acc with
      | [] => [[x]]
      | h :: t => if x == c then [] :: (h :: t) else (x :: h) :: t)
    [[]]

/-- `os.path.basename` for POSIX paths: the substring after the last slash. -/
def pyBasename (p : String) : String :=
  String.mk ((splitOnChar '/' p.toList).getLastD p.toList)

/-- `os.path.splitext`: split at the last dot, unless every character before
that dot is itself a dot (in which case there is no extension). -/
def pySplitext (b : String) : String × String :=
  let cs := b.toList
  let dots := (cs.enum.filter (fun q => q.2 == '.')).map (fun q => q.1)
  match dots.getLast? with
  | none => (b, "")
  | some d =>
    if (cs.take d).all (fun c => c == '.') then (b, "")
    else (String.mk (cs.take d), String.mk (cs.drop d))

/-- `str.lower` (ASCII, which covers every string the tool compares). -/
def pyLower (s : String) : String := String.mk (s.toList.map Char.toLower)

/-- `str.endswith` for a single suffix. -/
def pyEndsWith (s suffix : String) : Bool := suffix.toList.isSuffixOf s.toList

/-- `",".join(filters)` as used to build the `-af` filter-chain argument. -/
def joinComma (fs : List String) : String :=
  match fs with
  | [] => ""
  | f :: rest => rest.foldl (fun acc g => acc ++ "," ++ g) f

/-! ### Rotation mapping (`vid_tools.get_video_rotation_filter`) -/

/-- Rotation direction, from the `--rotate-cw` / `--rotate-ccw` flags.
The source passes the strings "cw" and "ccw"; only "ccw" is tested. -/
inductive RotDirection
  | cw
  | ccw
  deriving DecidableEq, Repr

/-- The four shapes of filter string `get_video_rotation_filter` returns:
"transpose=1", "transpose=2", "transpose=2,transpose=2" and
"rotate=R:bilinear=1" where R is the radian value printed by Python.
The `rotate` constructor carries the exact rational value of the radian
expression computed by the source. -/
inductive RotFilter
  | transpose1
  | transpose2
  | transpose2x2
  | rotate (radians : ℚ)
  deriving DecidableEq, Repr

/-- The literal 3.141592653589793 used by the source. -/
def piLit : ℚ := 3141592653589793 / 1000000000000000

/-- Python `a % b` for floats with `b > 0`: the result takes the sign of
the divisor, i.e. `a - b * floor (a / b)`. -/
def pyFmod (a b : ℚ) : ℚ := a - b * ((a / b).floor : ℚ)

/-- The signed angle after the counterclockwise negation
(`if direction == "ccw": angle = -angle`). -/
def signedAngle (degrees : ℚ) (direction : RotDirection) : ℚ :=
  match direction with
  | .ccw => -degrees
  | .cw => degrees

/-- `vid_tools.get_video_rotation_filter`.  The `except` branch of the
source (returning `None`) is reachable only when `float(degrees)` raises,
which cannot happen for the numeric degrees produced by `--rotate-cw=X` /
`--rotate-ccw=X` (argparse `type=float`), so it is not modelled.  Note the
continuous fallback uses `angle`, not `angle_mod`. -/
def get_video_rotation_filter (degrees : ℚ) (direction : RotDirection) : RotFilter :=
  let angle := signedAngle degrees direction
  let angle_mod := pyFmod angle 360
  if angle_mod = 90 ∨ angle_mod = -270 then .transpose1
  else if angle_mod = 270 ∨ angle_mod = -90 then .transpose2
  else if angle_mod = 180 ∨ angle_mod = -180 then .transpose2x2
  else .rotate (angle * piLit / 180)

/-! ### Audio analysis (`audio_analysis.py`) -/

/-- The three scalar descriptors returned by `analyze_audio`. -/
structure AudioStats where
  rms : ℚ
  zcr : ℚ
  centroid : ℚ
  deriving DecidableEq, Repr

/-- `audio_analysis.classify_content`: ordered threshold rules, first
match wins. -/
def classify_content (stats : AudioStats) : String :=
  if stats.zcr > 0.08 ∧ stats.centroid > 4000 then "vocals"
  else if stats.zcr < 0.04 ∧ stats.centroid < 2500 then "instrumental"
  else if stats.rms < 0.02 then "speech/podcast"
  else if stats.centroid > 6000 then "sibilant/harsh (maybe live vocals)"
  else "music/mixed"

/-- `audio_analysis.suggest_preset`: `presets.get(content_type, "music")`.
The dict lookup with default becomes an if-chain over the five keys. -/
def suggest_preset (content_type : String) : String :=
  if content_type = "vocals" then "vocals"
  else if content_type = "instrumental" then "inst"
  else if content_type = "music/mixed" then "music"
  else if content_type = "speech/podcast" then "podcast"
  else if content_type = "sibilant/harsh (maybe live vocals)" then "vocals + de-ess"
  else "music"

/-- `audio_analysis.auto_filters`: base chain keyed by the classified
content type, then conditional appends with string-equality duplicate
suppression. -/
def auto_filters (stats : AudioStats) : List String :=
  let ctype := classify_content stats
  let filters :=
    if ctype = "vocals" then
      ["highpass=f=80", "lowpass=f=12000", "deesser", "loudnorm=I=-14:TP=-1.5:LRA=11"]
    else if ctype = "instrumental" then
      ["highpass=f=60", "lowpass=f=16000", "loudnorm=I=-14:TP=-1.5:LRA=11"]
    else if ctype = "speech/podcast" then
      ["highpass=f=100", "lowpass=f=8000", "loudnorm=I=-16:TP=-2:LRA=10"]
    else
      ["highpass=f=80", "lowpass=f=14000",
       "acompressor=threshold=-18dB:ratio=3:attack=20:release=250",
       "loudnorm=I=-14:TP=-1.5:LRA=11"]
  let filters :=
    if stats.centroid > 6000 then
      filters ++ ["equalizer=f=6000:t=q:w=1.5:g=-6", "equalizer=f=10000:t=q:w=1.5:g=-8"]
    else filters
  let filters :=
    if stats.centroid > 3500 ∧ ¬ ("highpass=f=80" ∈ filters) then
      filters ++ ["highpass=f=80", "lowpass=f=12000"]
    else filters
  let filters :=
    if stats.centroid > 5000 ∧ ¬ ("deesser" ∈ filters) then
      filters ++ ["deesser"]
    else filters
  filters

/-! ### CLI options (`argparse` surface of `main`)

`tame_treble` is an unrestricted integer here: the argparse
`choices=range(1, 11)` restriction is CLI-level and the claims about the
planner quantify over levels outside it. -/

structure Args where
  input : String
  normalize : Bool := false
  normalize_extra : Bool := false
  compress : Bool := false
  compress_extra : Bool := false
  eq : Bool := false
  eq_extra : Bool := false
  deess : Bool := false
  tame_treble : Option ℤ := none
  preset : Option String := none
  all : Bool := false
  auto_suggest : Bool := false
  auto_apply : Bool := false
  classify : Bool := false
  img : Option String := none
  dry_run : Bool := false
  mp3 : Bool := false
  no_vid : Bool := false
  rotate_cw : Option ℚ := none
  rotate_ccw : Option ℚ := none
  out : Option String := none
  overwrite : Bool := false
  verbose : Bool := false
  debug : Bool := false
  install_deps : Bool := false
  install_deps_full : Bool := false
  report : Bool := false

/-! ### Filter planning (`main`, lines 158-220) -/

/-- Outcome of the filter-planning section of `main`. -/
inductive PlanOutcome
  | trebleError
  | suggestOnly
  | chain (filters : List String)
  deriving DecidableEq, Repr

/-- The fixed chain seeded by `--all`. -/
def applyAllChain : List String :=
  ["highpass=f=80", "lowpass=f=12000",
   "acompressor=threshold=-18dB:ratio=3:attack=20:release=250",
   "loudnorm=I=-14:TP=-1.5:LRA=11"]

/-- The additive boolean-flag section (lines 158-178): `--all` seeds the
chain, the individual flags append, in source order. -/
def flagFilters (a : Args) : List String :=
  let fs : List String := if a.all then applyAllChain else []
  let fs := if a.normalize then fs ++ ["dynaudnorm"] else fs
  let fs := if a.normalize_extra then fs ++ ["loudnorm=I=-14:TP=-1.5:LRA=11"] else fs
  let fs := if a.compress then fs ++ ["acompressor=threshold=-18dB:ratio=3:attack=20:release=250"] else fs
  let fs := if a.compress_extra then fs ++ ["acompressor=threshold=-24dB:ratio=6:attack=5:release=100"] else fs
  let fs := if a.eq then fs ++ ["highpass=f=80", "lowpass=f=12000"] else fs
  let fs := if a.eq_extra then fs ++ ["equalizer=f=2000:t=q:w=1:g=3"] else fs
  let fs := if a.deess then fs ++ ["deesser"] else fs
  fs

/-- Round a value given in hundredths to tenths, ties to even: Python
`round(x, 1)` for the exactly-representable inputs `-0.75 * level`. -/
def roundHalfEvenTenths (h : ℤ) : ℤ :=
  let q := h.fdiv 10
  let r := h - 10 * q
  if r > 5 then q + 1
  else if r < 5 then q
  else if q % 2 = 0 then q else q + 1

/-- Python `str(g)` for the one-decimal float gains, taking the gain in
tenths of a dB (e.g. `-30 ↦ "-3.0"`, `-52 ↦ "-5.2"`). -/
def fmtTenths (t : ℤ) : String :=
  (if t < 0 then "-" else "") ++ toString (t.natAbs / 10) ++ "." ++ toString (t.natAbs % 10)

/-- The `--tame-treble` fragments (lines 186-194).  Gains are tracked in
tenths: `g6000 = round(-1*level, 1)`, `g10000 = round(-1.5*level, 1)` are
exact; `g14000 = round(-0.75*level, 1)` needs the ties-to-even rounding,
and is `0` (suppressing the third fragment) below level 6. -/
def trebleFilters (level : ℤ) : List String :=
  let g6000 := -10 * level
  let g10000 := -15 * level
  let g14000 := if level ≥ 6 then roundHalfEvenTenths (-75 * level) else 0
  ["equalizer=f=6000:t=q:w=1.5:g=" ++ fmtTenths g6000,
   "equalizer=f=10000:t=q:w=1.5:g=" ++ fmtTenths g10000]
  ++ (if g14000 < 0 then ["equalizer=f=14000:t=q:w=1.2:g=" ++ fmtTenths g14000] else [])

/-- The preset block (lines 195-207): a recognized name replaces the whole
chain, any other name falls through every `elif` and leaves it unchanged. -/
def presetChain (name : String) (fs : List String) : List String :=
  if name = "vocals" then
    ["highpass=f=80", "lowpass=f=12000", "deesser", "loudnorm=I=-14:TP=-1.5:LRA=11"]
  else if name = "inst" then
    ["highpass=f=60", "lowpass=f=16000", "loudnorm=I=-14:TP=-1.5:LRA=11"]
  else if name = "music" then
    ["highpass=f=80", "lowpass=f=14000",
     "acompressor=threshold=-18dB:ratio=3:attack=20:release=250",
     "loudnorm=I=-14:TP=-1.5:LRA=11"]
  else if name = "podcast" then
    ["highpass=f=100", "lowpass=f=8000", "loudnorm=I=-16:TP=-2:LRA=10"]
  else fs

/-- The preset and auto-mode blocks that follow the treble block
(lines 195-216).  `if args.preset:` is Python truthiness, so an empty
string behaves like an absent preset.  `--auto-suggest` prints advisory
text and exits 0; `--auto-apply` replaces the chain with `auto_filters`. -/
def afterTreble (a : Args) (stats : AudioStats) (fs0 : List String) : PlanOutcome :=
  let fs := match a.preset with
    | some p => if p = "" then fs0 else presetChain p fs0
    | none => fs0
  if a.auto_suggest || a.auto_apply then
    if a.auto_suggest then .suggestOnly else .chain (auto_filters stats)
  else .chain fs

/-- The whole filter-planning section of `main` (lines 158-216).
`if args.tame_treble:` is Python truthiness: both `None` and `0` skip the
treble block entirely, so the inner `level < 1 or level > 10` check never
sees level 0. -/
def buildFilters (a : Args) (stats : AudioStats) : PlanOutcome :=
  let fs := flagFilters a
  match a.tame_treble with
  | none => afterTreble a stats fs
  | some level =>
    if level = 0 then afterTreble a stats fs
    else if level < 1 ∨ level > 10 then .trebleError
    else afterTreble a stats (fs ++ trebleFilters level)

/-- The treble block does not abort the run: the flag is absent, the level
is 0 (skipped by truthiness), or the level is in the CLI range. -/
def trebleOk (a : Args) : Prop :=
  match a.tame_treble with
  | none => True
  | some l => l = 0 ∨ (1 ≤ l ∧ l ≤ 10)

/-! ### Pipeline orchestration (`main`) -/

/-- One `ffmpeg_cmd` invocation; one constructor per call site of
`ffmpeg_cmd` in `main`, carrying the arguments that vary between runs
(temporary-file names inside the run-scoped directory are fixed and
omitted). -/
inductive EngineCall
  | extractAudio (input : String)
  | applyFilters (chain : String)
  | toMp3 (outPath : String)
  | extractVideo (input : String)
  | rotateVideo (rot : RotFilter)
  | mux (rotated : Bool) (outPath : String)
  | extractOutAudio (outPath : String)
  deriving DecidableEq, Repr

/-- The distinct fatal error messages of `main` (each printed immediately
before `sys.exit(1)`), plus the `ffmpeg_cmd` failure exit. -/
inductive ErrKind
  | inputNotFound
  | unsupportedFormat
  | outputExists
  | imgNotFound
  | imgNotAudio
  | invalidTrebleLevel
  | emptyChain
  | conflictingRotation
  | invalidRotation
  | engineFailure
  deriving DecidableEq, Repr

/-- Observable outcome of one invocation of `main`: exit status, the
ffmpeg invocations attempted in order, which error (if any) was printed,
whether a classification or a dry-run plan was printed, whether
`--auto-suggest` stopped the run, and the non-temporary files produced. -/
structure RunResult where
  exitCode : ℕ
  calls : List EngineCall
  err : Option ErrKind
  classified : Option (String × String)
  dryRunPlan : Option (List String)
  dryRunRotation : Option (ℚ × RotDirection)
  suggestedOnly : Bool
  outputs : List String
  deriving DecidableEq, Repr

/-- The all-quiet successful outcome, updated field-wise below. -/
def emptyResult : RunResult :=
  { exitCode := 0, calls := [], err := none, classified := none,
    dryRunPlan := none, dryRunRotation := none, suggestedOnly := false,
    outputs := [] }

/-- The external world: filesystem existence, the librosa descriptor
extraction, and whether each ffmpeg invocation succeeds. -/
structure Env where
  pathExists : String → Bool
  analyze : String → AudioStats
  engine : EngineCall → Bool

/-- The `allowed_ext` tuple of `main` (line 129). -/
def allowedExts : List String := [".wav", ".mp4", ".mov", ".mkv", ".flac"]

/-- `in_ext.lower()` as computed by `main` (line 130). -/
def inExt (a : Args) : String := pyLower (pySplitext (pyBasename a.input)).2

/-- `output_file` as computed by `main` (lines 135-136); `args.out or d`
is Python truthiness, so an empty `--out` falls back to the default. -/
def outputFile (a : Args) : String :=
  let basename := (pySplitext (pyBasename a.input)).1
  let output_type := if a.mp3 then "mp3" else "wav"
  match a.out with
  | some s => if s = "" then basename ++ "_cleaned." ++ output_type else s
  | none => basename ++ "_cleaned." ++ output_type

/-- The `--img` validation block (lines 150-156); `if args.img:` is Python
truthiness.  Returns the fatal error it raises, if any. -/
def imgCheck (a : Args) (env : Env) : Option ErrKind :=
  match a.img with
  | none => none
  | some s =>
    if s = "" then none
    else if !env.pathExists s then some .imgNotFound
    else if !(pyEndsWith (pyLower a.input) ".mp3" || pyEndsWith (pyLower a.input) ".wav"
              || pyEndsWith (pyLower a.input) ".flac") then some .imgNotAudio
    else none

/-- The rotation request resolved by the `elif` ladder (lines 233-238 and
280-285), applicable only after the two flags were checked not to be
simultaneously present. -/
def rotationOf (a : Args) : Option (ℚ × RotDirection) :=
  match a.rotate_cw with
  | some v => some (v, .cw)
  | none =>
    match a.rotate_ccw with
    | some v => some (v, .ccw)
    | none => none

/-- `ffmpeg_cmd` printed the engine diagnostic and exited with status 1. -/
def engineFail (cs : List EngineCall) : RunResult :=
  { emptyResult with exitCode := 1, err := some .engineFailure, calls := cs }

/-- The `--report` block (lines 306-317) followed by the normal end of
`main`: when the final output is a muxed video container, audio is demuxed
back out of it with one more engine call before the after-stats. -/
def finishRun (a : Args) (env : Env) (in_ext output_file : String)
    (cs : List EngineCall) (outs : List String) : RunResult :=
  if a.report then
    if !a.no_vid && in_ext ≠ ".wav" && !a.mp3 then
      let c := EngineCall.extractOutAudio output_file
      if !env.engine c then
        { emptyResult with
          exitCode := 1
          err := some .engineFailure
          calls := cs ++ [c]
          outputs := outs }
      else { emptyResult with calls := cs ++ [c], outputs := outs }
    else { emptyResult with calls := cs, outputs := outs }
  else { emptyResult with calls := cs, outputs := outs }

/-- The `tempfile.TemporaryDirectory` block of `main` (lines 243-319):
extract audio, apply the filter chain, then either finalize audio-only
(mp3 transcode or copy) or extract video, check the rotation conflict,
optionally rotate, and mux. -/
def execPipeline (a : Args) (env : Env) (in_ext output_file : String)
    (filters : List String) : RunResult :=
  let c1 := EngineCall.extractAudio a.input
  if !env.engine c1 then engineFail [c1]
  else
    let c2 := EngineCall.applyFilters (joinComma filters)
    if !env.engine c2 then engineFail [c1, c2]
    else if a.no_vid || in_ext = ".wav" then
      if a.mp3 then
        let c3 := EngineCall.toMp3 output_file
        if !env.engine c3 then engineFail [c1, c2, c3]
        else finishRun a env in_ext output_file [c1, c2, c3] [output_file]
      else
        finishRun a env in_ext output_file [c1, c2] [output_file]
    else
      let c3 := EngineCall.extractVideo a.input
      if !env.engine c3 then engineFail [c1, c2, c3]
      else if a.rotate_cw.isSome && a.rotate_ccw.isSome then
        { emptyResult with
          exitCode := 1
          err := some .conflictingRotation
          calls := [c1, c2, c3] }
      else
        match rotationOf a with
        | some (deg, dir) =>
          let c4 := EngineCall.rotateVideo (get_video_rotation_filter deg dir)
          if !env.engine c4 then engineFail [c1, c2, c3, c4]
          else
            let c5 := EngineCall.mux true output_file
            if !env.engine c5 then engineFail [c1, c2, c3, c4, c5]
            else finishRun a env in_ext output_file [c1, c2, c3, c4, c5] [output_file]
        | none =>
          let c5 := EngineCall.mux false output_file
          if !env.engine c5 then engineFail [c1, c2, c3, c5]
          else finishRun a env in_ext output_file [c1, c2, c3, c5] [output_file]

/-- `main` of `src/audio_cleanup.py`, from the end of argument parsing to
process exit, as a function of the parsed options and the external world. -/
def runMain (a : Args) (env : Env) : RunResult :=
  if a.install_deps then emptyResult
  else if a.install_deps_full then emptyResult
  else if !env.pathExists a.input then
    { emptyResult with exitCode := 1, err := some .inputNotFound }
  else
    let in_ext := inExt a
    if !(allowedExts.contains in_ext) then
      { emptyResult with exitCode := 1, err := some .unsupportedFormat }
    else
      let output_file := outputFile a
      if env.pathExists output_file && !a.overwrite then
        { emptyResult with exitCode := 1, err := some .outputExists }
      else if a.classify then
        let ctype := classify_content (env.analyze a.input)
        { emptyResult with classified := some (ctype, suggest_preset ctype) }
      else
        match imgCheck a env with
        | some e => { emptyResult with exitCode := 1, err := some e }
        | none =>
          match buildFilters a (env.analyze a.input) with
          | .trebleError =>
            { emptyResult with exitCode := 1, err := some .invalidTrebleLevel }
          | .suggestOnly => { emptyResult with suggestedOnly := true }
          | .chain filters =>
            if filters.isEmpty then
              { emptyResult with exitCode := 1, err := some .emptyChain }
            else if a.dry_run then
              if a.rotate_cw.isSome && a.rotate_ccw.isSome then
                { emptyResult with
                  exitCode := 1
                  err := some .conflictingRotation
                  dryRunPlan := some filters }
              else
                { emptyResult with
                  dryRunPlan := some filters
                  dryRunRotation := rotationOf a }
            else
              execPipeline a env in_ext output_file filters

/-! ### Concrete scenarios used by the claim theorems -/

/-- An environment in which `in.wav`, `in.mp4` and `in.flac` exist,
nothing else does, and every engine invocation succeeds. -/
def okEnv : Env :=
  { pathExists := fun p => p == "in.wav" || p == "in.mp4" || p == "in.flac"
    analyze := fun _ => ⟨0, 0, 0⟩
    engine := fun _ => true }

/-- A dry run on `in.wav` with `--eq` and both rotation flags. -/
def dryConflictArgs (d₁ d₂ : ℚ) : Args :=
  { input := "in.wav", eq := true, dry_run := true
    rotate_cw := some d₁, rotate_ccw := some d₂ }

/-- A video run on `in.mp4` with `--eq` and both rotation flags. -/
def videoConflictArgs (d₁ d₂ : ℚ) : Args :=
  { input := "in.mp4", eq := true
    rotate_cw := some d₁, rotate_ccw := some d₂ }

/-- An audio-only run (`--no-vid`) on `in.wav` with `--eq` and both
rotation flags. -/
def audioConflictArgs (d₁ d₂ : ℚ) : Args :=
  { input := "in.wav", eq := true, no_vid := true
    rotate_cw := some d₁, rotate_ccw := some d₂ }

/-- `--mp3 --eq` on the video input `in.mp4`, without `--no-vid`. -/
def mp3VideoArgs : Args := { input := "in.mp4", eq := true, mp3 := true }

/-- `--eq` on the audio-only input `in.flac`. -/
def flacArgs : Args := { input := "in.flac", eq := true }

/-- `--dry-run --eq --normalize-extra` on `in.wav`. -/
def eqNormArgs : Args :=
  { input := "in.wav", eq := true, normalize_extra := true, dry_run := true }

/-- `--eq --tame-treble=LEVEL` on `in.wav`. -/
def trebleArgs (l : ℤ) : Args :=
  { input := "in.wav", eq := true, tame_treble := some l }

/-- `--classify` on `in.wav` with an explicit `--out` naming an existing
file. -/
def classifyArgs : Args :=
  { input := "in.wav", classify := true, out := some "existing.wav" }

/-- Environment for the classify scenario: input and output both exist. -/
def classifyEnv : Env :=
  { pathExists := fun p => p == "in.wav" || p == "existing.wav"
    analyze := fun _ => ⟨0, 0, 0⟩
    engine := fun _ => true }

/-- A preset supplied together with other flag fragments. -/
def presetAfterFlagsArgs : Args :=
  { input := "in.wav", eq := true, deess := true, preset := some "podcast" }

/-! ### Helper lemmas -/

/-- Batteries `Rat.floor` agrees with the Mathlib floor on `ℚ`. -/
theorem ratFloor_eq_intFloor (q : ℚ) : (q.floor : ℤ) = ⌊q⌋ := by
  rw [Rat.floor_def', ← Rat.floor_def]

/-- Evaluate `pyFmod a 360` once the integer quotient is known. -/
theorem pyFmod_eval (a : ℚ) (k : ℤ) (h1 : (k : ℚ) ≤ a / 360) (h2 : a / 360 < k + 1) :
    pyFmod a 360 = a - 360 * k := by
  rw [pyFmod, ratFloor_eq_intFloor, Int.floor_eq_iff.mpr ⟨h1, h2⟩]

/-- `pyFmod _ 360` is nonnegative (Python `%` takes the divisor's sign). -/
theorem pyFmod_nonneg (a : ℚ) : 0 ≤ pyFmod a 360 := by
  have hf := Int.fract_nonneg (a / 360)
  have h : pyFmod a 360 = 360 * Int.fract (a / 360) := by
    rw [pyFmod, ratFloor_eq_intFloor, Int.fract]
    ring
  rw [h]
  linarith

/-! ### Claim C1 -/

/-- Claim C1 is false on the code: with both `--rotate-cw=90` and
`--rotate-ccw=90` supplied on an audio-only run (`--no-vid`), `main` never
reaches a conflicting-rotation check: it extracts and filters audio (two
engine calls), writes the output and exits 0 with no error. -/
theorem claim1_counterexample :
    runMain (audioConflictArgs 90 90) okEnv =
      { emptyResult with
        calls := [.extractAudio "in.wav", .applyFilters "highpass=f=80,lowpass=f=12000"]
        outputs := ["in_cleaned.wav"] } ∧
    (runMain (audioConflictArgs 90 90) okEnv).err = none ∧
    (runMain (audioConflictArgs 90 90) okEnv).exitCode = 0 := by
  exact ⟨rfl, rfl, rfl⟩

/-- Claim C1 amended: supplying both rotation directions is detected only
(a) in the dry-run branch, which exits 1 after printing the filter plan and
before any engine call, and (b) in the video-reattachment branch, which
exits 1 only after the audio-extraction, filter and video-extraction engine
calls; an audio-only run never checks the conflict and completes
successfully. -/
theorem claim1_amended (d₁ d₂ : ℚ) :
    runMain (dryConflictArgs d₁ d₂) okEnv =
      { emptyResult with
        exitCode := 1
        err := some .conflictingRotation
        dryRunPlan := some ["highpass=f=80", "lowpass=f=12000"] } ∧
    runMain (videoConflictArgs d₁ d₂) okEnv =
      { emptyResult with
        exitCode := 1
        err := some .conflictingRotation
        calls := [.extractAudio "in.mp4", .applyFilters "highpass=f=80,lowpass=f=12000",
                  .extractVideo "in.mp4"] } ∧
    runMain (audioConflictArgs d₁ d₂) okEnv =
      { emptyResult with
        calls := [.extractAudio "in.wav", .applyFilters "highpass=f=80,lowpass=f=12000"]
        outputs := ["in_cleaned.wav"] } := by
  exact ⟨rfl, rfl, rfl⟩

/-! ### Claim C2 -/

/-- Claim C2: the code contradicts it (and the usage text saying `--mp3`
implies `--no-vid`).  The finalize branch tests only
`args.no_vid or in_ext.lower() == ".wav"`: requesting MP3 output from a
`.mp4` input routes into video reattachment, muxing video into the `.mp3`
output path, and a `.flac` input (audio-only, on the allow-list) is also
routed into video reattachment instead of the audio-only branch. -/
theorem claim2_code_divergence :
    runMain mp3VideoArgs okEnv =
      { emptyResult with
        calls := [.extractAudio "in.mp4", .applyFilters "highpass=f=80,lowpass=f=12000",
                  .extractVideo "in.mp4", .mux false "in_cleaned.mp3"]
        outputs := ["in_cleaned.mp3"] } ∧
    runMain flacArgs okEnv =
      { emptyResult with
        calls := [.extractAudio "in.flac", .applyFilters "highpass=f=80,lowpass=f=12000",
                  .extractVideo "in.flac", .mux false "in_cleaned.wav"]
        outputs := ["in_cleaned.wav"] } := by
  exact ⟨rfl, rfl⟩

/-! ### Claim C3 -/

/-- Claim C3 is false on the code: the printed plan for
`--dry-run --eq --normalize-extra` lists the loudness-normalize fragment
first, because the `--normalize-extra` block precedes the `--eq` block in
`main`, not in the order the claim states. -/
theorem claim3_counterexample :
    runMain eqNormArgs okEnv =
      { emptyResult with
        dryRunPlan := some ["loudnorm=I=-14:TP=-1.5:LRA=11", "highpass=f=80",
                            "lowpass=f=12000"] } ∧
    (runMain eqNormArgs okEnv).dryRunPlan ≠
      some ["highpass=f=80", "lowpass=f=12000", "loudnorm=I=-14:TP=-1.5:LRA=11"] := by
  exact ⟨rfl, by decide⟩

/-- Claim C3 amended: a dry run with exactly `--eq` and `--normalize-extra`
on an existing `.wav` input whose default output does not yet exist prints
the plan `["loudnorm=I=-14:TP=-1.5:LRA=11", "highpass=f=80",
"lowpass=f=12000"]` (normalize-extra first, in flag-processing order),
exits 0, performs no engine call and creates no file. -/
theorem claim3_amended (env : Env)
    (hin : env.pathExists eqNormArgs.input = true)
    (hout : env.pathExists (outputFile eqNormArgs) = false) :
    runMain eqNormArgs env =
      { emptyResult with
        dryRunPlan := some ["loudnorm=I=-14:TP=-1.5:LRA=11", "highpass=f=80",
                            "lowpass=f=12000"] } := by
  unfold runMain
  simp only [hin, hout]
  rfl

/-- Witness for the amended claim C3 at the concrete environment. -/
theorem claim3_amended_witness :
    runMain eqNormArgs okEnv =
      { emptyResult with
        dryRunPlan := some ["loudnorm=I=-14:TP=-1.5:LRA=11", "highpass=f=80",
                            "lowpass=f=12000"] } :=
  claim3_amended okEnv rfl rfl

/-! ### Claim C4 -/

/-- Claim C4 is false on the code: for 405 clockwise degrees (congruent to
45 mod 360) the continuous fragment is built from the un-normalized angle
`405 * pi / 180`, not from the mod-360-normalized angle `45 * pi / 180`:
the source computes `radians` from `angle`, not from `angle_mod`. -/
theorem claim4_counterexample :
    get_video_rotation_filter 405 .cw = .rotate (405 * piLit / 180) ∧
    RotFilter.rotate ((405 : ℚ) * piLit / 180) ≠
      .rotate (pyFmod 405 360 * piLit / 180) := by
  have hm : pyFmod 405 360 = 45 := by
    rw [pyFmod_eval 405 1 (by norm_num) (by norm_num)]
    norm_num
  constructor
  · norm_num [get_video_rotation_filter, signedAngle, hm]
  · simp only [ne_eq, RotFilter.rotate.injEq, hm]
    rw [piLit]
    norm_num

/-- Claim C4 amended: for every degree value whose signed angle is not
congruent to 0, 90, 180 or 270 mod 360, the result is the
continuous-rotation fragment whose angle parameter is the un-normalized
signed angle times pi/180; the mod-360 reduction is used only to dispatch
the discrete cases, not before the radian conversion. -/
theorem claim4_amended (d : ℚ) (dir : RotDirection)
    (_h0 : pyFmod (signedAngle d dir) 360 ≠ 0)
    (h90 : pyFmod (signedAngle d dir) 360 ≠ 90)
    (h180 : pyFmod (signedAngle d dir) 360 ≠ 180)
    (h270 : pyFmod (signedAngle d dir) 360 ≠ 270) :
    get_video_rotation_filter d dir = .rotate (signedAngle d dir * piLit / 180) := by
  have hnn := pyFmod_nonneg (signedAngle d dir)
  have hn270 : pyFmod (signedAngle d dir) 360 ≠ -270 := by
    intro hc
    rw [hc] at hnn
    norm_num at hnn
  have hn90 : pyFmod (signedAngle d dir) 360 ≠ -90 := by
    intro hc
    rw [hc] at hnn
    norm_num at hnn
  have hn180 : pyFmod (signedAngle d dir) 360 ≠ -180 := by
    intro hc
    rw [hc] at hnn
    norm_num at hnn
  simp only [get_video_rotation_filter]
  rw [if_neg (not_or.mpr ⟨h90, hn270⟩), if_neg (not_or.mpr ⟨h270, hn90⟩),
    if_neg (not_or.mpr ⟨h180, hn180⟩)]

/-- Witness for the amended claim C4 at 45 clockwise degrees. -/
theorem claim4_amended_witness :
    get_video_rotation_filter 45 .cw = .rotate (signedAngle 45 .cw * piLit / 180) := by
  have hm : pyFmod (signedAngle 45 .cw) 360 = 45 := by
    rw [show signedAngle 45 .cw = 45 from rfl,
      pyFmod_eval 45 0 (by norm_num) (by norm_num)]
    norm_num
  exact claim4_amended 45 .cw (by rw [hm]; norm_num) (by rw [hm]; norm_num)
    (by rw [hm]; norm_num) (by rw [hm]; norm_num)

/-! ### Claim C5 -/

/-- Claim C5: sign-negation symmetry holds for every degree value
(`mapRotation(d, cw) = mapRotation(-d, ccw)`), and the discrete
equivalences hold: 90 and -270 clockwise both give the 90-degree transpose
fragment, 270 and -90 give the other transpose, 180 and -180 give the
double transpose. -/
theorem claim5_rotation_symmetry :
    (∀ d : ℚ, get_video_rotation_filter d .cw = get_video_rotation_filter (-d) .ccw) ∧
    (get_video_rotation_filter 90 .cw = get_video_rotation_filter (-270) .cw ∧
      get_video_rotation_filter 90 .cw = .transpose1) ∧
    (get_video_rotation_filter 270 .cw = get_video_rotation_filter (-90) .cw ∧
      get_video_rotation_filter 270 .cw = .transpose2) ∧
    (get_video_rotation_filter 180 .cw = get_video_rotation_filter (-180) .cw ∧
      get_video_rotation_filter 180 .cw = .transpose2x2) := by
  have h90 : pyFmod 90 360 = 90 := by
    rw [pyFmod_eval 90 0 (by norm_num) (by norm_num)]
    norm_num
  have hm270 : pyFmod (-270) 360 = 90 := by
    rw [pyFmod_eval (-270) (-1) (by norm_num) (by norm_num)]
    norm_num
  have h270 : pyFmod 270 360 = 270 := by
    rw [pyFmod_eval 270 0 (by norm_num) (by norm_num)]
    norm_num
  have hm90 : pyFmod (-90) 360 = 270 := by
    rw [pyFmod_eval (-90) (-1) (by norm_num) (by norm_num)]
    norm_num
  have h180 : pyFmod 180 360 = 180 := by
    rw [pyFmod_eval 180 0 (by norm_num) (by norm_num)]
    norm_num
  have hm180 : pyFmod (-180) 360 = 180 := by
    rw [pyFmod_eval (-180) (-1) (by norm_num) (by norm_num)]
    norm_num
  refine ⟨fun d => by simp [get_video_rotation_filter, signedAngle], ⟨?_, ?_⟩, ⟨?_, ?_⟩, ⟨?_, ?_⟩⟩
  · norm_num [get_video_rotation_filter, signedAngle, h90, hm270]
  · norm_num [get_video_rotation_filter, signedAngle, h90]
  · norm_num [get_video_rotation_filter, signedAngle, h270, hm90]
  · norm_num [get_video_rotation_filter, signedAngle, h270]
  · norm_num [get_video_rotation_filter, signedAngle, h180, hm180]
  · norm_num [get_video_rotation_filter, signedAngle, h180]

/-! ### Claim C6 -/

/-- With the auto modes off and a treble level that does not abort, the
planner reduces to `afterTreble` on some accumulated flag chain. -/
theorem buildFilters_shape (a : Args) (stats : AudioStats)
    (ht : trebleOk a) :
    ∃ fs0, buildFilters a stats = afterTreble a stats fs0 := by
  rcases hb : a.tame_treble with _ | l
  · exact ⟨flagFilters a, by simp only [buildFilters, hb]⟩
  · simp only [trebleOk, hb] at ht
    rcases ht with h0 | ⟨hl1, hl2⟩
    · subst h0
      exact ⟨flagFilters a, by simp [buildFilters, hb]⟩
    · refine ⟨flagFilters a ++ trebleFilters l, ?_⟩
      simp only [buildFilters, hb]
      rw [if_neg (by omega), if_neg (by omega)]

/-- An unrecognized (or empty) preset name leaves `afterTreble` unchanged
relative to an absent preset. -/
theorem afterTreble_unrecognized (a : Args) (stats : AudioStats) (fs0 : List String)
    (s : String) (hp : a.preset = some s) (h1 : s ≠ "vocals") (h2 : s ≠ "inst")
    (h3 : s ≠ "music") (h4 : s ≠ "podcast") :
    afterTreble a stats fs0 = afterTreble { a with preset := none } stats fs0 := by
  simp only [afterTreble, hp]
  by_cases hse : s = ""
  · rw [if_pos hse]
  · rw [if_neg hse]
    rw [show presetChain s fs0 = fs0 from by
      simp only [presetChain]
      rw [if_neg h1, if_neg h2, if_neg h3, if_neg h4]]

/-- Claim C6: with the auto modes off and a non-aborting treble level, a
recognized preset name (vocals, inst, music, podcast) makes the planned
chain equal exactly that preset's fixed sequence, regardless of fragments
accumulated by the other flags; any other supplied preset name leaves the
planner's outcome exactly as if no preset had been supplied, raising no
error. -/
theorem claim6_preset_replaces (a : Args) (stats : AudioStats)
    (hs : a.auto_suggest = false) (hap : a.auto_apply = false) (ht : trebleOk a) :
    ((a.preset = some "vocals" → buildFilters a stats =
        .chain ["highpass=f=80", "lowpass=f=12000", "deesser",
                "loudnorm=I=-14:TP=-1.5:LRA=11"]) ∧
     (a.preset = some "inst" → buildFilters a stats =
        .chain ["highpass=f=60", "lowpass=f=16000", "loudnorm=I=-14:TP=-1.5:LRA=11"]) ∧
     (a.preset = some "music" → buildFilters a stats =
        .chain ["highpass=f=80", "lowpass=f=14000",
                "acompressor=threshold=-18dB:ratio=3:attack=20:release=250",
                "loudnorm=I=-14:TP=-1.5:LRA=11"]) ∧
     (a.preset = some "podcast" → buildFilters a stats =
        .chain ["highpass=f=100", "lowpass=f=8000", "loudnorm=I=-16:TP=-2:LRA=10"])) ∧
    (∀ s, a.preset = some s → s ≠ "vocals" → s ≠ "inst" → s ≠ "music" → s ≠ "podcast" →
      buildFilters a stats = buildFilters { a with preset := none } stats) := by
  obtain ⟨fs0, hkey⟩ := buildFilters_shape a stats ht
  constructor
  · refine ⟨fun hp => ?_, fun hp => ?_, fun hp => ?_, fun hp => ?_⟩ <;>
      rw [hkey] <;>
      simp [afterTreble, hp, hs, hap, presetChain]
  · intro s hp h1 h2 h3 h4
    have hfs : flagFilters { a with preset := none } = flagFilters a := rfl
    rcases hb : a.tame_treble with _ | l
    · simp only [buildFilters, hb, hfs]
      exact afterTreble_unrecognized a stats _ s hp h1 h2 h3 h4
    · simp only [buildFilters, hb, hfs]
      by_cases hl0 : l = 0
      · rw [if_pos hl0, if_pos hl0]
        exact afterTreble_unrecognized a stats _ s hp h1 h2 h3 h4
      · rw [if_neg hl0, if_neg hl0]
        by_cases hlr : l < 1 ∨ l > 10
        · rw [if_pos hlr, if_pos hlr]
        · rw [if_neg hlr, if_neg hlr]
          exact afterTreble_unrecognized a stats _ s hp h1 h2 h3 h4

/-- Witness for claim C6: `--eq --deess --preset=podcast` plans exactly the
podcast sequence, discarding the eq and de-ess fragments. -/
theorem claim6_witness :
    buildFilters presetAfterFlagsArgs ⟨0, 0, 0⟩ =
      .chain ["highpass=f=100", "lowpass=f=8000", "loudnorm=I=-16:TP=-2:LRA=10"] :=
  (claim6_preset_replaces presetAfterFlagsArgs ⟨0, 0, 0⟩ rfl rfl trivial).1.2.2.2 rfl

/-! ### Claim C7 -/

/-- Claim C7: the classifier's rules are evaluated in order with first
match winning: any descriptors with zero-crossing rate above 0.08 and
spectral centroid above 4000 classify as vocals, with no condition on the
loudness proxy (so also when it is below rule 3's 0.02 threshold); and
descriptors matching none of the four rules classify as music/mixed. -/
theorem claim7_classifier_order :
    (∀ st : AudioStats, st.zcr > 0.08 → st.centroid > 4000 →
      classify_content st = "vocals") ∧
    (∀ st : AudioStats, ¬(st.zcr > 0.08 ∧ st.centroid > 4000) →
      ¬(st.zcr < 0.04 ∧ st.centroid < 2500) → ¬(st.rms < 0.02) →
      ¬(st.centroid > 6000) → classify_content st = "music/mixed") := by
  constructor
  · intro st h1 h2
    unfold classify_content
    rw [if_pos ⟨h1, h2⟩]
  · intro st h1 h2 h3 h4
    unfold classify_content
    rw [if_neg h1, if_neg h2, if_neg h3, if_neg h4]

/-- Witness for claim C7: descriptors satisfying rules 1 and 3 at once
(loudness proxy 0.01 below 0.02) classify as vocals, and descriptors
matching no rule classify as music/mixed. -/
theorem claim7_witness :
    classify_content ⟨0.01, 0.09, 5000⟩ = "vocals" ∧
    classify_content ⟨0.05, 0.05, 3000⟩ = "music/mixed" :=
  ⟨claim7_classifier_order.1 ⟨0.01, 0.09, 5000⟩ (by norm_num) (by norm_num),
   claim7_classifier_order.2 ⟨0.05, 0.05, 3000⟩ (by norm_num) (by norm_num)
     (by norm_num) (by norm_num)⟩

/-! ### Claim C8 -/

/-- Claim C8 is false on the code for level 0: `if args.tame_treble:` is
Python truthiness, so level 0 skips the treble block entirely; with
`--eq --tame-treble=0` the planner raises no error, plans the eq fragments
only, and the run completes with exit status 0. -/
theorem claim8_counterexample :
    buildFilters (trebleArgs 0) ⟨0, 0, 0⟩ = .chain ["highpass=f=80", "lowpass=f=12000"] ∧
    runMain (trebleArgs 0) okEnv =
      { emptyResult with
        calls := [.extractAudio "in.wav", .applyFilters "highpass=f=80,lowpass=f=12000"]
        outputs := ["in_cleaned.wav"] } :=
  ⟨rfl, rfl⟩

/-- Claim C8 amended: for every nonzero treble level outside [1,10] the
planner itself aborts with the invalid-treble-level error independently of
the CLI range restriction, the run makes no engine call and exits with
status 1; level 0, however, is skipped by truthiness rather than rejected. -/
theorem claim8_amended :
    (∀ (a : Args) (stats : AudioStats) (l : ℤ), a.tame_treble = some l → l ≠ 0 →
      (l < 1 ∨ l > 10) → buildFilters a stats = .trebleError) ∧
    (∀ l : ℤ, l ≠ 0 → (l < 1 ∨ l > 10) →
      runMain (trebleArgs l) okEnv =
        { emptyResult with exitCode := 1, err := some .invalidTrebleLevel }) := by
  have hplan : ∀ (a : Args) (stats : AudioStats) (l : ℤ), a.tame_treble = some l →
      l ≠ 0 → (l < 1 ∨ l > 10) → buildFilters a stats = .trebleError := by
    intro a stats l hl hne hr
    simp only [buildFilters, hl]
    rw [if_neg hne, if_pos hr]
  refine ⟨hplan, fun l hne hr => ?_⟩
  unfold runMain
  rw [hplan (trebleArgs l) (okEnv.analyze (trebleArgs l).input) l rfl hne hr]
  rfl

/-- Witness for the amended claim C8 at level 11. -/
theorem claim8_amended_witness :
    buildFilters (trebleArgs 11) ⟨0, 0, 0⟩ = .trebleError ∧
    runMain (trebleArgs 11) okEnv =
      { emptyResult with exitCode := 1, err := some .invalidTrebleLevel } :=
  ⟨claim8_amended.1 (trebleArgs 11) ⟨0, 0, 0⟩ 11 rfl (by decide) (Or.inr (by decide)),
   claim8_amended.2 11 (by decide) (Or.inr (by decide))⟩

/-! ### Claim C9 -/

/-- Claim C9: a classify run performs the input-existence, extension and
output-overwrite validations first: whenever the resolved output path
already exists and overwrite is not allowed, the run exits 1 with the
output-exists error and prints no classification, even though a classify
run never writes that file. -/
theorem claim9_classify_validation (a : Args) (env : Env)
    (hi1 : a.install_deps = false) (hi2 : a.install_deps_full = false)
    (_hcls : a.classify = true)
    (hin : env.pathExists a.input = true)
    (hext : allowedExts.contains (inExt a) = true)
    (hout : env.pathExists (outputFile a) = true)
    (hov : a.overwrite = false) :
    runMain a env = { emptyResult with exitCode := 1, err := some .outputExists } := by
  have hext' : inExt a ∈ allowedExts := by simpa using hext
  unfold runMain
  simp [hi1, hi2, hin, hext', hout, hov]

/-- Witness for claim C9: `--classify --out=existing.wav` on `in.wav` with
`existing.wav` present fails with the output-exists error and no
classification output. -/
theorem claim9_witness :
    runMain classifyArgs classifyEnv =
      { emptyResult with exitCode := 1, err := some .outputExists } :=
  claim9_classify_validation classifyArgs classifyEnv rfl rfl rfl rfl rfl rfl rfl

/-! ### Claim C10 -/

/-- Claim C10: `suggest_preset` is total over arbitrary label strings: any
label other than the five known content labels maps to the default
"music", and the sibilant/harsh label maps to the compound recommendation
"vocals + de-ess". -/
theorem claim10_suggest_preset_total :
    (∀ s : String, s ≠ "vocals" → s ≠ "instrumental" → s ≠ "music/mixed" →
      s ≠ "speech/podcast" → s ≠ "sibilant/harsh (maybe live vocals)" →
      suggest_preset s = "music") ∧
    suggest_preset "sibilant/harsh (maybe live vocals)" = "vocals + de-ess" := by
  constructor
  · intro s h1 h2 h3 h4 h5
    unfold suggest_preset
    rw [if_neg h1, if_neg h2, if_neg h3, if_neg h4, if_neg h5]
  · rfl

/-- Witness for claim C10 at a label outside the known five. -/
theorem claim10_witness : suggest_preset "live-recording" = "music" :=
  claim10_suggest_preset_total.1 "live-recording" (by decide) (by decide) (by decide)
    (by decide) (by decide)

end VidScripts
